import Mathlib

/-!
Shallow embedding of the risk-scoring and fusion engine of the
HEALTH-ANALYTICS repository (src/backend/ml_models.py), together with
theorems checking the specification's claims against it.

Conventions of the embedding:
* Python floats are modelled as exact rationals (`ℚ`); the decimal literals
  appearing in the source denote the same rational values here, and every
  comparison performed by the code at the inputs considered in the theorems
  is robust under this identification.
* Python `round(x, n)` (banker's rounding to `n` decimal digits) is
  modelled by `pyRound`.
* `None`-able inputs are `Option` values; Python's `dict.get(k, d)` /
  `safe_get` patterns become `Option.getD`, and Python's `x or d`
  (which also replaces falsy values such as `0` and `""`) becomes
  `pyOrQ` / `pyOrStr`.
* Output dictionaries are modelled as structures holding the fields the
  claims are about; fields irrelevant to every claim (display strings,
  per-factor dictionaries, volatility statistics, model version tags)
  are omitted and noted at each definition.
* The imaging classifier's pseudo-random draw (`random.seed(hash(str(data)))`
  followed by `random.sample`) depends on the process's string-hash salt,
  i.e. on ambient state outside the input; the draw is therefore an explicit
  `sample` parameter of the embedding.
-/

namespace HealthAnalytics

/-! ### Generic helpers -/

/-- Does `need` occur as a leading segment of `hay`? (used for Python
`str.startswith`). -/
def startsList : List Char → List Char → Bool
  | _, [] => true
  | [], _ :: _ => false
  | a :: as, b :: bs => a == b && startsList as bs

/-- Python `pat in hay` substring containment on character lists. -/
def containsList (hay need : List Char) : Bool :=
  match hay with
  | [] => need.isEmpty
  | _ :: t => startsList hay need || containsList t need

/-- Python `s.startswith(pat)`. -/
def strStarts (s pat : String) : Bool := startsList s.data pat.data

/-- Python `s.upper()` (ASCII, per-character). -/
def strUpper (s : String) : String := ⟨s.data.map Char.toUpper⟩

/-- Python `s.lower()` (ASCII, per-character). -/
def strLower (s : String) : String := ⟨s.data.map Char.toLower⟩

/-- Python `gender.upper().startswith('M')`. -/
def upperStartsM (g : String) : Bool :=
  match g.data with
  | [] => false
  | c :: _ => c.toUpper == 'M'

/-- Python `x or d` for a possibly missing number: `d` replaces both
`None` and `0` (zero is falsy in Python). -/
def pyOrQ (x : Option ℚ) (d : ℚ) : ℚ :=
  match x with
  | none => d
  | some v => if v = 0 then d else v

/-- Python `x or d` for a possibly missing string: `d` replaces both
`None` and the empty string. -/
def pyOrStr (x : Option String) (d : String) : String :=
  match x with
  | none => d
  | some s => if s.isEmpty then d else s

/-- Python `round(q, ndigits)`: round half to even at `ndigits` decimal
digits (exact-rational idealisation of float rounding; it agrees with the
float computation at every value reached in the theorems below). -/
def pyRound (ndigits : Nat) (q : ℚ) : ℚ :=
  let scale : ℚ := (10 : ℚ) ^ ndigits
  let t := q * scale
  let f : ℤ := ⌊t⌋
  let r := t - f
  let n : ℤ := if r < 1/2 then f else if 1/2 < r then f + 1 else if 2 ∣ f then f else f + 1
  (n : ℚ) / scale

/-- Python `list(dict.fromkeys(l))`: drop duplicates, keeping the first
occurrence of each element, preserving order (accumulator `seen` holds the
keys already emitted). -/
def dedupGo : List String → List String → List String
  | [], _ => []
  | a :: t, seen => if seen.contains a then dedupGo t seen else a :: dedupGo t (a :: seen)

/-- Python `list(dict.fromkeys(l))`. -/
def dedupKeepFirst (l : List String) : List String := dedupGo l []

/-- Python `max(l)` over a nonempty list (0 as a junk value on `[]`,
never reached by the callers below). -/
def listMax : List ℚ → ℚ
  | [] => 0
  | [x] => x
  | x :: y :: t => max x (listMax (y :: t))

/-- `np.mean(l)`. -/
def listMean (l : List ℚ) : ℚ := l.sum / l.length

/-! ### AnomalyDetector (ml_models.py lines 15–214)

`analyze_trend` is embedded for a series of already-extracted numeric
values (the code's `data_points` after dropping `None`s); the statistics
irrelevant to every claim (`min_value`, `max_value`, `average`,
`std_deviation`, `volatility`, `data_points`) are omitted from the
result structure. -/

structure RateThreshold where
  warning : ℚ
  critical : ℚ
deriving DecidableEq, Repr

/-- `AnomalyDetector.RATE_THRESHOLDS` (per-month rate-of-change limits). -/
def RATE_THRESHOLDS : List (String × RateThreshold) :=
  [("A1C", ⟨0.3, 0.5⟩), ("GLUCOSE", ⟨15, 30⟩), ("LDL", ⟨20, 40⟩), ("BP_SYSTOLIC", ⟨10, 20⟩)]

structure TrendResult where
  trend : String
  first_value : ℚ
  last_value : ℚ
  absolute_change : ℚ
  percent_change : ℚ
  rate_alert : Option String
  is_concerning : Bool
deriving DecidableEq, Repr

/-- Trend direction from the raw absolute and percent change
(ml_models.py lines 164–180). -/
def trendDirection (ac pc : ℚ) : String :=
  if ac > 0 then
    if pc > 20 then "RAPIDLY_INCREASING"
    else if pc > 5 then "INCREASING"
    else "SLIGHTLY_INCREASING"
  else if ac < 0 then
    if pc < -20 then "RAPIDLY_DECREASING"
    else if pc < -5 then "DECREASING"
    else "SLIGHTLY_DECREASING"
  else "STABLE"

/-- Rate-of-change alert (ml_models.py lines 189–198): the critical
threshold is tested first, then the warning one. -/
def rateAlertFor (lab_type : String) (monthly : ℚ) : Option String :=
  match RATE_THRESHOLDS.lookup (strUpper lab_type) with
  | none => none
  | some t =>
    if monthly ≥ t.critical then some "CRITICAL_RATE_OF_CHANGE"
    else if monthly ≥ t.warning then some "WARNING_RATE_OF_CHANGE"
    else none

/-- `AnomalyDetector.analyze_trend` (ml_models.py lines 131–214) on a
series of valid numeric values; `none` models the INSUFFICIENT_DATA
early return for fewer than 2 points. -/
def analyze_trend (values : List ℚ) (lab_type : String) : Option TrendResult :=
  if values.length < 2 then none
  else
    let first := values.headD 0
    let last := values.getLastD 0
    let ac := last - first
    let pc := if first ≠ 0 then ac / first * 100 else 0
    let trend := trendDirection ac pc
    let monthly := |ac| / ((max 1 (values.length - 1) : ℕ) : ℚ)
    let alert := rateAlertFor lab_type monthly
    some ⟨trend, first, last, pyRound 2 ac, pyRound 1 pc, alert,
          strStarts trend "RAPIDLY" || alert.isSome⟩

/-! ### DiabetesRiskModel (ml_models.py lines 322–526)

The output structure keeps the fields the claims are about
(`classification`, `risk_score`, `risk_level`); contributing factors,
recommendations, trend, key values and threshold strings are omitted.
Historical values are modelled as plain numbers (the numeric branch of
the source's extraction; the fusion engine only ever passes numbers). -/

def A1C_NORMAL_MAX : ℚ := 5.6
def A1C_PREDIABETIC_MAX : ℚ := 6.4
def GLUCOSE_NORMAL_MAX : ℚ := 100
def GLUCOSE_PREDIABETIC_MAX : ℚ := 125

/-- `DiabetesRiskModel.classify_a1c` (lines 341–352); `none` models a
`None` A1C value, replaced by 5.5. -/
def classify_a1c (a1cValue : Option ℚ) : String × ℚ :=
  let a1c := a1cValue.getD 5.5
  if a1c < A1C_NORMAL_MAX then ("NORMAL", 0.1)
  else if a1c < A1C_PREDIABETIC_MAX then ("PRE_DIABETIC", 0.5)
  else ("DIABETIC", 0.9)

structure DiabetesInput where
  a1c_values : List ℚ
  glucose_values : List ℚ
  age : Option ℚ
  bmi : Option ℚ
  family_history_diabetes : Bool
  has_hypertension : Bool
deriving Repr

/-- Final diabetes risk bucketing (lines 469–477). -/
def diabetesRiskLevel (r : ℚ) : String :=
  if r < 0.2 then "LOW"
  else if r < 0.5 then "MODERATE"
  else if r < 0.75 then "HIGH"
  else "CRITICAL"

structure DiabetesOutput where
  classification : String
  risk_score : ℚ
  risk_level : String
deriving DecidableEq, Repr

/-- `DiabetesRiskModel.predict` (lines 354–526): most recent A1C/glucose
(defaults 5.5 / 90), base risk from A1C, additive capped modifiers,
sum capped at 0.95, bucketed. -/
def diabetesPredict (inp : DiabetesInput) : DiabetesOutput :=
  let age := pyOrQ inp.age 50
  let bmi := pyOrQ inp.bmi 25
  let latest_a1c := inp.a1c_values.getLastD 5.5
  let latest_glucose := inp.glucose_values.getLastD 90
  let base := classify_a1c (some latest_a1c)
  let glucoseMod : ℚ :=
    if latest_glucose > GLUCOSE_NORMAL_MAX then
      (if latest_glucose ≤ GLUCOSE_PREDIABETIC_MAX then 0.1 else 0.2)
    else 0
  let ageMod : ℚ := if age > 45 then min 0.15 ((age - 45) * 0.005) else 0
  let bmiMod : ℚ := if bmi > 25 then min 0.2 ((bmi - 25) * 0.02) else 0
  let famMod : ℚ := if inp.family_history_diabetes then 0.15 else 0
  let hypMod : ℚ := if inp.has_hypertension then 0.1 else 0
  let final := min 0.95 (base.2 + (glucoseMod + ageMod + bmiMod + famMod + hypMod))
  { classification := base.1
    risk_score := pyRound 3 final
    risk_level := diabetesRiskLevel final }

/-! ### CardiovascularRiskModel (ml_models.py lines 529–720)

The output keeps `risk_score` and `risk_level`; contributing factors,
recommendations, the cholesterol ratio and the ten-year percentage are
omitted.  `on_bp_medication` is read by the source but never used in the
scoring and is omitted from the input. -/

def LDL_OPTIMAL : ℚ := 100
def HDL_OPTIMAL : ℚ := 60
def TRIG_HIGH : ℚ := 150
def BP_SYS_NORMAL : ℚ := 120

structure CvdInput where
  ldl : Option ℚ
  hdl : Option ℚ
  total_cholesterol : Option ℚ
  triglycerides : Option ℚ
  bp_systolic : Option ℚ
  bp_diastolic : Option ℚ
  age : Option ℚ
  gender : Option String
  is_smoker : Option Bool
  has_diabetes : Option Bool
deriving Repr

/-- Cardiovascular risk bucketing (lines 668–676). -/
def cvdRiskLevel (r : ℚ) : String :=
  if r < 0.1 then "LOW"
  else if r < 0.2 then "MODERATE"
  else if r < 0.4 then "HIGH"
  else "CRITICAL"

structure CvdOutput where
  risk_score : ℚ
  risk_level : String
deriving DecidableEq, Repr

/-- `CardiovascularRiskModel.predict` (lines 550–720): additive capped
contributions (LDL, HDL, triglycerides, systolic BP, age, male gender,
smoking, diabetes), sum capped at 0.95, bucketed. -/
def cvdPredict (inp : CvdInput) : CvdOutput :=
  let ldl := inp.ldl.getD 100
  let hdl := inp.hdl.getD 50
  let trig := inp.triglycerides.getD 120
  let bpSys := inp.bp_systolic.getD 120
  let age := inp.age.getD 50
  let gender := inp.gender.getD "M"
  let smoker := inp.is_smoker.getD false
  let diabetes := inp.has_diabetes.getD false
  let ldlRisk : ℚ := if ldl > LDL_OPTIMAL then min 0.25 ((ldl - LDL_OPTIMAL) / 200) else 0
  let hdlRisk : ℚ := if hdl < HDL_OPTIMAL then min 0.15 ((HDL_OPTIMAL - hdl) / 100) else 0
  let trigRisk : ℚ := if trig > TRIG_HIGH then min 0.1 ((trig - TRIG_HIGH) / 500) else 0
  let bpRisk : ℚ := if bpSys > BP_SYS_NORMAL then min 0.2 ((bpSys - BP_SYS_NORMAL) / 100) else 0
  let ageRisk : ℚ := if age > 40 then min 0.2 ((age - 40) * 0.005) else 0
  let genderRisk : ℚ := if upperStartsM gender then 0.05 else 0
  let smokeRisk : ℚ := if smoker then 0.15 else 0
  let diabRisk : ℚ := if diabetes then 0.15 else 0
  let final := min 0.95
    (ldlRisk + hdlRisk + trigRisk + bpRisk + ageRisk + genderRisk + smokeRisk + diabRisk)
  { risk_score := pyRound 3 final, risk_level := cvdRiskLevel final }

/-! ### ImagingClassifier (ml_models.py lines 723–1004)

Catalog entries keep the finding name and severity (the fields the
claims depend on); descriptions, probabilities, anatomical regions and
staging annotations are omitted.  The pseudo-random draw of abnormal
findings (lines 882–887: `random.seed(hash(str(imaging_data)))` then
`random.sample`) is an explicit `sample` parameter, since the seed is
the process-salted Python string hash of the input's repr — ambient
state, not a function of the input content. -/

structure Finding where
  name : String
  severity : String
deriving DecidableEq, Repr

def xrayChestFindings : List Finding :=
  [⟨"No acute cardiopulmonary abnormality", "NORMAL"⟩,
   ⟨"Cardiomegaly", "MODERATE"⟩,
   ⟨"Pulmonary nodule", "HIGH"⟩,
   ⟨"Pneumonia", "MODERATE"⟩,
   ⟨"Pleural effusion", "MODERATE"⟩]

def ctChestFindings : List Finding :=
  [⟨"No significant abnormality", "NORMAL"⟩,
   ⟨"Pulmonary nodule < 6mm", "LOW"⟩,
   ⟨"Ground glass opacity", "MODERATE"⟩,
   ⟨"Suspicious pulmonary mass", "HIGH"⟩,
   ⟨"Mediastinal lymphadenopathy", "MODERATE"⟩]

def mriBrainFindings : List Finding :=
  [⟨"No acute intracranial abnormality", "NORMAL"⟩,
   ⟨"White matter hyperintensities", "LOW"⟩,
   ⟨"Small vessel ischemic disease", "MODERATE"⟩,
   ⟨"Enhancing brain lesion", "HIGH"⟩,
   ⟨"Acute ischemic infarct", "CRITICAL"⟩]

def ctAbdomenFindings : List Finding :=
  [⟨"No acute abnormality", "NORMAL"⟩,
   ⟨"Hepatic steatosis", "LOW"⟩,
   ⟨"Simple renal cyst", "LOW"⟩,
   ⟨"Indeterminate hepatic lesion", "MODERATE"⟩,
   ⟨"Pancreatic mass", "HIGH"⟩]

def mammogramBreastFindings : List Finding :=
  [⟨"No significant abnormality", "NORMAL"⟩,
   ⟨"Benign calcifications", "LOW"⟩,
   ⟨"Asymmetric density", "MODERATE"⟩,
   ⟨"Suspicious calcifications", "HIGH"⟩]

/-- `FINDINGS_DB.get((modality, body_part), FINDINGS_DB[('XRAY','CHEST')])`. -/
def findingsFor (modality body_part : String) : List Finding :=
  if modality == "XRAY" && body_part == "CHEST" then xrayChestFindings
  else if modality == "CT" && body_part == "CHEST" then ctChestFindings
  else if modality == "MRI" && body_part == "BRAIN" then mriBrainFindings
  else if modality == "CT" && body_part == "ABDOMEN" then ctAbdomenFindings
  else if modality == "MAMMOGRAM" && body_part == "BREAST" then mammogramBreastFindings
  else xrayChestFindings

structure ImagingInput where
  modality : Option String
  body_part : Option String
  abnormality_score : Option ℚ
deriving Repr

/-- Finding selection of `ImagingClassifier.predict` (lines 859–891):
below 0.3 the catalog's single normal finding; otherwise `sample` draws
`min num |abnormal|` findings from the non-normal catalog entries, where
`num` is 1 below 0.6 and 2 otherwise. -/
def imagingDetect (sample : List Finding → Nat → List Finding)
    (inp : ImagingInput) : List Finding :=
  let modality := pyOrStr inp.modality "XRAY"
  let body := pyOrStr inp.body_part "CHEST"
  let score := inp.abnormality_score.getD 0.2
  let catalog := findingsFor modality body
  if score < 0.3 then catalog.take 1
  else
    let abnormal := catalog.filter (fun f => f.severity != "NORMAL")
    let num := if score < 0.6 then 1 else 2
    sample abnormal (min num abnormal.length)

/-- Overall severity and tier risk score (lines 893–909): the highest
severity present among the detected findings. -/
def imagingSeverityRisk (fs : List Finding) : String × ℚ :=
  let sevs := fs.map (fun f => f.severity)
  if sevs.contains "CRITICAL" then ("CRITICAL", 0.9)
  else if sevs.contains "HIGH" then ("HIGH", 0.7)
  else if sevs.contains "MODERATE" then ("MODERATE", 0.5)
  else if sevs.contains "LOW" then ("LOW", 0.3)
  else ("NORMAL", 0.1)

/-- The `risk_level` field of the imaging prediction (line 938): this is
the overall severity string itself. -/
def imagingRiskLevel (sample : List Finding → Nat → List Finding)
    (inp : ImagingInput) : String :=
  (imagingSeverityRisk (imagingDetect sample inp)).1

/-- One admissible resolution of the pseudo-random draw: take the first
`k` candidates. -/
def sampleFirst (l : List Finding) (k : Nat) : List Finding := l.take k

/-- Another admissible resolution of the pseudo-random draw: take the
last `k` candidates. -/
def sampleLast (l : List Finding) (k : Nat) : List Finding := l.drop (l.length - k)

/-! ### ClinicalNLPProcessor (ml_models.py lines 1007–1135)

Only the pieces the claims depend on are embedded: the condition
severity lookup and the `risk_level` computation (the running maximum of
per-condition severities).  The complexity score, insights and
recommendations are omitted. -/

/-- `ClinicalNLPProcessor.CONDITION_SEVERITY` in source (insertion)
order; the loop over it breaks at the first key contained in the
lower-cased condition string. -/
def CONDITION_SEVERITY : List (String × String) :=
  [("diabetes", "CHRONIC"), ("cancer", "CRITICAL"), ("hypertension", "CHRONIC"),
   ("heart disease", "HIGH"), ("obesity", "MODERATE"), ("depression", "MODERATE"),
   ("copd", "CHRONIC"), ("asthma", "CHRONIC"), ("kidney disease", "HIGH"),
   ("arthritis", "CHRONIC")]

/-- Severity of one condition string (lines 1063–1070): first matching
substring key wins, default MODERATE. -/
def conditionSeverity (c : String) : String :=
  match CONDITION_SEVERITY.find? (fun p => containsList (strLower c).data p.1.data) with
  | some p => p.2
  | none => "MODERATE"

/-- `severity_order` (line 1079). -/
def severityOrder (s : String) : Nat :=
  if s = "LOW" then 0
  else if s = "MODERATE" then 1
  else if s = "CHRONIC" then 2
  else if s = "HIGH" then 3
  else if s = "CRITICAL" then 4
  else 0

/-- The `risk_level` field of the clinical-notes prediction
(lines 1060–1081, 1117): running maximum of condition severities,
starting from LOW. -/
def nlpRiskLevel (conditions : List String) : String :=
  conditions.foldl
    (fun hi c =>
      let sev := conditionSeverity c
      if severityOrder sev > severityOrder hi then sev else hi)
    "LOW"

/-! ### GenomicsRiskModel (ml_models.py lines 1138–1428)

Gene records keep the fields used by the scoring: associated conditions,
lifetime risk increase and screening recommendations (`inheritance` and
`cancer_type` feed only unclaimed output fields and are omitted, as are
`chromosome`/`position`/allele fields of variants).  Syndrome hits omit
the `syndrome_code` key. -/

structure GenomicVariant where
  gene : String
  classification : String
deriving DecidableEq, Repr

structure GeneInfo where
  conditions : List String
  lifetime_risk_increase : ℚ
  screening_recommendations : List String
deriving DecidableEq, Repr

/-- `GENE_DISEASE_DB` (lines 1155–1219). -/
def GENE_DISEASE_DB : List (String × GeneInfo) :=
  [("BRCA1", ⟨["Breast cancer", "Ovarian cancer", "Pancreatic cancer"], 0.7,
     ["Annual mammogram from age 25", "Annual MRI", "Consider prophylactic surgery"]⟩),
   ("BRCA2", ⟨["Breast cancer", "Ovarian cancer", "Prostate cancer", "Pancreatic cancer"], 0.6,
     ["Annual mammogram from age 25", "Annual MRI", "Prostate screening from age 40"]⟩),
   ("TP53", ⟨["Li-Fraumeni syndrome", "Multiple cancer types"], 0.9,
     ["Comprehensive cancer screening", "Annual whole-body MRI"]⟩),
   ("MLH1", ⟨["Lynch syndrome", "Colorectal cancer", "Endometrial cancer"], 0.5,
     ["Colonoscopy every 1-2 years from age 20-25"]⟩),
   ("MSH2", ⟨["Lynch syndrome", "Colorectal cancer", "Urinary tract cancer"], 0.5,
     ["Colonoscopy every 1-2 years from age 20-25"]⟩),
   ("APC", ⟨["Familial adenomatous polyposis", "Colorectal cancer"], 0.95,
     ["Annual colonoscopy from age 10-12", "Consider prophylactic colectomy"]⟩),
   ("CFTR", ⟨["Cystic fibrosis"], 0,
     ["Pulmonary function tests", "Pancreatic enzyme levels"]⟩),
   ("HBB", ⟨["Sickle cell disease", "Beta thalassemia"], 0,
     ["Complete blood count monitoring"]⟩),
   ("APOE", ⟨["Alzheimer disease risk", "Cardiovascular disease risk"], 0,
     ["Cognitive screening if symptomatic", "Cardiovascular risk assessment"]⟩)]

/-- `GENE_DISEASE_DB.get(gene, {})`: unknown genes get no conditions, no
risk increase, no screening guidance. -/
def geneInfo (g : String) : GeneInfo := (GENE_DISEASE_DB.lookup g).getD ⟨[], 0, []⟩

/-- Actionability per `ACMG_CLASSIFICATIONS` (lines 1146–1152): only
PATHOGENIC and LIKELY_PATHOGENIC have `actionable = True`; any unknown
classification string falls back to the VUS entry (not actionable). -/
def acmgActionable (c : String) : Bool :=
  c == "PATHOGENIC" || c == "LIKELY_PATHOGENIC"

structure ClassifiedVariant where
  classification : String
  gene : String
  is_actionable : Bool
  associated_conditions : List String
  lifetime_risk_increase : ℚ
  screening_recommendations : List String
deriving DecidableEq, Repr

/-- `GenomicsRiskModel.classify_variant_acmg` (lines 1246–1270); the
source stores `acmg_info['actionable'] and gene_info.get('conditions')`,
truthy exactly when the tier is actionable and the condition list is
nonempty. -/
def classify_variant_acmg (v : GenomicVariant) : ClassifiedVariant :=
  let gi := geneInfo v.gene
  { classification := v.classification
    gene := v.gene
    is_actionable := acmgActionable v.classification && !gi.conditions.isEmpty
    associated_conditions := gi.conditions
    lifetime_risk_increase := gi.lifetime_risk_increase
    screening_recommendations := gi.screening_recommendations }

/-- Genes of variants classified PATHOGENIC or LIKELY_PATHOGENIC
(lines 1276–1279; the source builds a set, used only through membership
and intersection, so a list with membership is an equivalent model). -/
def pathogenicGenes (vs : List GenomicVariant) : List String :=
  (vs.filter (fun v =>
    v.classification == "PATHOGENIC" || v.classification == "LIKELY_PATHOGENIC")).map
    (fun v => v.gene)

structure Syndrome where
  name : String
  genes : List String
  primary_cancers : List String
  surveillance_protocol : String
deriving DecidableEq, Repr

def hbocSyndrome : Syndrome :=
  ⟨"Hereditary Breast and Ovarian Cancer Syndrome",
   ["BRCA1", "BRCA2", "PALB2", "ATM", "CHEK2"],
   ["Breast", "Ovarian"],
   "NCCN High-Risk Breast Cancer Screening"⟩

def lynchSyndrome : Syndrome :=
  ⟨"Lynch Syndrome (HNPCC)",
   ["MLH1", "MSH2", "MSH6", "PMS2", "EPCAM"],
   ["Colorectal", "Endometrial"],
   "Amsterdam II / Bethesda Guidelines"⟩

def liFraumeniSyndrome : Syndrome :=
  ⟨"Li-Fraumeni Syndrome",
   ["TP53"],
   ["Sarcoma", "Breast", "Brain", "Adrenal"],
   "Toronto Protocol"⟩

/-- `HEREDITARY_SYNDROMES` (lines 1222–1241). -/
def HEREDITARY_SYNDROMES : List Syndrome :=
  [hbocSyndrome, lynchSyndrome, liFraumeniSyndrome]

structure SyndromeHit where
  syndrome : String
  affected_genes : List String
  primary_cancers : List String
  surveillance_protocol : String
  confidence : ℚ
deriving DecidableEq, Repr

/-- One syndrome's contribution in `identify_hereditary_syndromes`
(lines 1281–1291): report the syndrome iff some panel gene carries a
pathogenic / likely-pathogenic variant; confidence 0.9 when more than
one gene matches, else 0.75. -/
def syndromeHitFor (pg : List String) (s : Syndrome) : Option SyndromeHit :=
  let matching := s.genes.filter (fun g => pg.contains g)
  if matching.isEmpty then none
  else some ⟨s.name, matching, s.primary_cancers, s.surveillance_protocol,
             if 1 < matching.length then 0.9 else 0.75⟩

/-- `GenomicsRiskModel.identify_hereditary_syndromes` (lines 1272–1293). -/
def identify_hereditary_syndromes (vs : List GenomicVariant) : List SyndromeHit :=
  HEREDITARY_SYNDROMES.filterMap (syndromeHitFor (pathogenicGenes vs))

/-- Overall genomics risk level and raw score (lines 1350–1362). -/
def genomicsRiskOf (pathCount lpCount vusCount : Nat) (maxLri : ℚ) : String × ℚ :=
  if 0 < pathCount then ("HIGH", max 0.7 maxLri)
  else if 0 < lpCount then ("MODERATE", max 0.5 (maxLri * 0.8))
  else if 0 < vusCount then ("LOW", 0.25)
  else ("LOW", 0.1)

/-- Gene-specific screening recommendations (lines 1412–1418): first
two per gene, each gene once. -/
def geneScreenRecs : List ClassifiedVariant → List String → List String
  | [], _ => []
  | v :: rest, seen =>
    if seen.contains v.gene then geneScreenRecs rest seen
    else v.screening_recommendations.take 2 ++ geneScreenRecs rest (v.gene :: seen)

/-- `GenomicsRiskModel._generate_recommendations` (lines 1398–1428). -/
def genomicsRecommendations (pathCount lpCount vusCount : Nat)
    (syndromes : List SyndromeHit) (actionable : List ClassifiedVariant) : List String :=
  let counsel :=
    if 0 < pathCount ∨ 0 < lpCount then
      ["Genetic counseling strongly recommended", "Discuss results with a clinical geneticist"]
    else []
  let synRecs :=
    ((syndromes.take 2).map (fun s =>
      ["Follow " ++ s.surveillance_protocol ++ " surveillance protocol",
       "Screen for " ++ String.intercalate ", " (s.primary_cancers.take 2) ++ " cancers"])).flatten
  let geneRecs := geneScreenRecs actionable []
  let vusRec :=
    if 0 < vusCount ∧ pathCount = 0 then
      ["VUS findings require periodic re-evaluation as evidence evolves"]
    else []
  let base := counsel ++ synRecs ++ geneRecs ++ vusRec
  let recs :=
    if base.isEmpty then
      ["No actionable genetic findings - continue routine care",
       "Consider updating genetic testing as technology advances"]
    else base
  (dedupKeepFirst recs).take 8

structure GenomicsOutput where
  prediction_type : String
  risk_score : ℚ
  risk_level : String
  confidence : ℚ
  hereditary_syndromes : List SyndromeHit
  recommendations : List String
deriving DecidableEq, Repr

/-- `GenomicsRiskModel.predict` (lines 1295–1396).  The empty-variant
early return (lines 1300–1311) carries no `recommendations` key in the
source; downstream reads use `.get('recommendations', [])`, so it is
modelled as the empty list. -/
def genomicsPredict (vs : List GenomicVariant) : GenomicsOutput :=
  match vs with
  | [] => ⟨"GENOMICS_RISK", 0.1, "LOW", 0.9, [], []⟩
  | v :: rest =>
    let variants := v :: rest
    let cv := variants.map classify_variant_acmg
    let pathCount := (cv.filter (fun c => c.classification == "PATHOGENIC")).length
    let lpCount := (cv.filter (fun c => c.classification == "LIKELY_PATHOGENIC")).length
    let vusCount := (cv.filter (fun c => c.classification == "VUS")).length
    let maxLri := cv.foldl (fun m c => max m c.lifetime_risk_increase) 0
    let syndromes := identify_hereditary_syndromes variants
    let actionable := cv.filter (fun c => c.is_actionable)
    let risk := genomicsRiskOf pathCount lpCount vusCount maxLri
    { prediction_type := "GENOMICS_RISK"
      risk_score := pyRound 3 risk.2
      risk_level := risk.1
      confidence := 0.88
      hereditary_syndromes := syndromes
      recommendations := genomicsRecommendations pathCount lpCount vusCount syndromes actionable }

/-! ### MultiModalFusionModel (ml_models.py lines 1431–1570)

The fusion arithmetic is embedded over the per-domain risk scores (each
an `Option`: `none` when that scorer did not run), mirroring the order
in which `predict` appends to `risk_scores`, and over the per-domain
recommendation lists in the same invocation order. -/

/-- One weighted entry of the `risk_scores` list. -/
def optWeighted (w : ℚ) (s : Option ℚ) : List ℚ :=
  match s with
  | none => []
  | some x => [x * w]

/-- The `risk_scores` list built by `MultiModalFusionModel.predict`
(lines 1476, 1501, 1509, 1521, 1528): diabetes ×1.2, cardiovascular
×1.1, imaging and clinical notes unweighted, genomics ×1.3, in
invocation order. -/
def fusionWeightedScores (dia cvd img nlp gen : Option ℚ) : List ℚ :=
  optWeighted 1.2 dia ++ optWeighted 1.1 cvd ++ optWeighted 1 img ++
    optWeighted 1 nlp ++ optWeighted 1.3 gen

/-- The fused overall risk (lines 1532–1541): 0.6·mean + 0.4·max of the
weighted scores when any scorer ran, 0.1 otherwise, then capped at
0.95. -/
def fusionOverallRisk (ws : List ℚ) : ℚ :=
  let overall := if ws.isEmpty then 0.1 else 0.6 * listMean ws + 0.4 * listMax ws
  min 0.95 overall

/-- Overall risk bucketing (lines 1543–1551). -/
def fusionRiskLevel (r : ℚ) : String :=
  if r < 0.2 then "LOW"
  else if r < 0.4 then "MODERATE"
  else if r < 0.7 then "HIGH"
  else "CRITICAL"

/-- The fused recommendation list (lines 1458, 1478, 1502, 1511, 1523,
1530, 1553–1554): concatenate the domain lists in invocation order,
deduplicate keeping first occurrences, cap at 10. -/
def fusionRecommendations (domainRecs : List (List String)) : List String :=
  (dedupKeepFirst domainRecs.flatten).take 10

/-! ### Helper lemmas -/

theorem dedupGo_sublist (l : List String) : ∀ seen, (dedupGo l seen).Sublist l := by
  induction l with
  | nil => intro seen; exact List.Sublist.refl _
  | cons a t ih =>
    intro seen
    simp only [dedupGo]
    by_cases h : seen.contains a = true
    · rw [if_pos h]; exact (ih seen).cons a
    · rw [if_neg h]; exact (ih (a :: seen)).cons₂ a

theorem mem_dedupGo (x : String) (l : List String) :
    ∀ seen, x ∈ dedupGo l seen ↔ x ∈ l ∧ x ∉ seen := by
  induction l with
  | nil => intro seen; simp [dedupGo]
  | cons a t ih =>
    intro seen
    simp only [dedupGo]
    by_cases h : seen.contains a = true
    · have ha : a ∈ seen := by simpa using h
      rw [if_pos h]
      simp only [ih seen, List.mem_cons]
      constructor
      · rintro ⟨hx, hs⟩
        exact ⟨Or.inr hx, hs⟩
      · rintro ⟨hx | hx, hs⟩
        · exact absurd (hx ▸ ha) hs
        · exact ⟨hx, hs⟩
    · have ha : a ∉ seen := by simpa using h
      rw [if_neg h]
      simp only [List.mem_cons, ih (a :: seen)]
      constructor
      · rintro (hx | ⟨hx, hs⟩)
        · exact ⟨Or.inl hx, hx ▸ ha⟩
        · exact ⟨Or.inr hx, fun h1 => hs (Or.inr h1)⟩
      · rintro ⟨hx | hx, hs⟩
        · exact Or.inl hx
        · by_cases hxa : x = a
          · exact Or.inl hxa
          · exact Or.inr ⟨hx, fun hcon => hcon.elim hxa hs⟩

theorem dedupGo_nodup (l : List String) : ∀ seen, (dedupGo l seen).Nodup := by
  induction l with
  | nil => intro seen; simp [dedupGo]
  | cons a t ih =>
    intro seen
    simp only [dedupGo]
    by_cases h : seen.contains a = true
    · rw [if_pos h]; exact ih seen
    · rw [if_neg h]
      refine List.nodup_cons.mpr ⟨fun hmem => ?_, ih (a :: seen)⟩
      exact ((mem_dedupGo a t (a :: seen)).mp hmem).2 (List.mem_cons_self a seen)

theorem dedupKeepFirst_sublist (l : List String) : (dedupKeepFirst l).Sublist l :=
  dedupGo_sublist l []

theorem mem_dedupKeepFirst (x : String) (l : List String) :
    x ∈ dedupKeepFirst l ↔ x ∈ l := by
  unfold dedupKeepFirst
  rw [mem_dedupGo]
  simp

theorem dedupKeepFirst_nodup (l : List String) : (dedupKeepFirst l).Nodup :=
  dedupGo_nodup l []

theorem dedupTake_nodup (n : Nat) (l : List String) :
    ((dedupKeepFirst l).take n).Nodup :=
  (List.take_sublist n _).nodup (dedupKeepFirst_nodup l)

theorem dedupTake_length (n : Nat) (l : List String) :
    ((dedupKeepFirst l).take n).length ≤ n := by
  rw [List.length_take]
  exact min_le_left _ _

/-- If `q` scaled by `10 ^ n` is an integer, Python rounding to `n`
digits returns `q` itself. -/
theorem pyRound_exact {n : Nat} {q : ℚ} (k : ℤ) (hk : q * 10 ^ n = (k : ℚ)) :
    pyRound n q = q := by
  simp only [pyRound]
  rw [hk, Int.floor_intCast, sub_self]
  rw [if_pos (by norm_num : (0 : ℚ) < 1 / 2)]
  rw [div_eq_iff (by positivity : ((10 : ℚ) ^ n) ≠ 0)]
  exact hk.symm

theorem genomicsRecommendations_nodup_len (pathCount lpCount vusCount : Nat)
    (syndromes : List SyndromeHit) (actionable : List ClassifiedVariant) :
    (genomicsRecommendations pathCount lpCount vusCount syndromes actionable).Nodup ∧
    (genomicsRecommendations pathCount lpCount vusCount syndromes actionable).length ≤ 8 := by
  unfold genomicsRecommendations
  exact ⟨dedupTake_nodup 8 _, dedupTake_length 8 _⟩

theorem diabetesRiskLevel_mem (r : ℚ) :
    diabetesRiskLevel r ∈ (["LOW", "MODERATE", "HIGH", "CRITICAL"] : List String) := by
  unfold diabetesRiskLevel
  split_ifs <;> simp

theorem cvdRiskLevel_mem (r : ℚ) :
    cvdRiskLevel r ∈ (["LOW", "MODERATE", "HIGH", "CRITICAL"] : List String) := by
  unfold cvdRiskLevel
  split_ifs <;> simp

theorem genomicsRiskOf_fst_mem (p lp v : Nat) (m : ℚ) :
    (genomicsRiskOf p lp v m).1 ∈ (["LOW", "MODERATE", "HIGH", "CRITICAL"] : List String) := by
  unfold genomicsRiskOf
  split_ifs <;> simp

theorem imagingSeverityRisk_fst_mem (fs : List Finding) :
    (imagingSeverityRisk fs).1 ∈
      (["NORMAL", "LOW", "MODERATE", "HIGH", "CRITICAL"] : List String) := by
  unfold imagingSeverityRisk
  dsimp only
  split_ifs <;> simp

theorem conditionSeverity_mem (c : String) :
    conditionSeverity c ∈ (["MODERATE", "CHRONIC", "CRITICAL", "HIGH"] : List String) := by
  unfold conditionSeverity
  cases hfind : CONDITION_SEVERITY.find? (fun p => containsList (strLower c).data p.1.data) with
  | none => simp
  | some p =>
    have hp := List.mem_of_find?_eq_some hfind
    have htab : ∀ q ∈ CONDITION_SEVERITY,
        q.2 ∈ (["MODERATE", "CHRONIC", "CRITICAL", "HIGH"] : List String) := by decide
    simpa using htab p hp

theorem nlpRiskLevel_mem (conditions : List String) :
    nlpRiskLevel conditions ∈
      (["LOW", "MODERATE", "CHRONIC", "HIGH", "CRITICAL"] : List String) := by
  have main : ∀ (l : List String) (hi : String),
      hi ∈ (["LOW", "MODERATE", "CHRONIC", "HIGH", "CRITICAL"] : List String) →
      l.foldl (fun hi c =>
        let sev := conditionSeverity c
        if severityOrder sev > severityOrder hi then sev else hi) hi ∈
        (["LOW", "MODERATE", "CHRONIC", "HIGH", "CRITICAL"] : List String) := by
    intro l
    induction l with
    | nil => intro hi h; simpa using h
    | cons c t ih =>
      intro hi h
      rw [List.foldl_cons]
      apply ih
      show (if severityOrder (conditionSeverity c) > severityOrder hi
            then conditionSeverity c else hi) ∈ _
      split_ifs
      · have h4 := conditionSeverity_mem c
        simp only [List.mem_cons, List.not_mem_nil, or_false] at h4
        rcases h4 with h1 | h1 | h1 | h1 <;> rw [h1] <;> simp
      · exact h
  exact main conditions "LOW" (by simp)

theorem syndrome_name_inj : ∀ a ∈ HEREDITARY_SYNDROMES, ∀ b ∈ HEREDITARY_SYNDROMES,
    a.name = b.name → a = b := by decide

theorem syndromeHitFor_eq_some (pg : List String) (s : Syndrome) (h : SyndromeHit) :
    syndromeHitFor pg s = some h ↔
      (s.genes.filter (fun g => pg.contains g) ≠ [] ∧
       h = ⟨s.name, s.genes.filter (fun g => pg.contains g), s.primary_cancers,
            s.surveillance_protocol,
            if 1 < (s.genes.filter (fun g => pg.contains g)).length then 0.9 else 0.75⟩) := by
  unfold syndromeHitFor
  dsimp only
  by_cases hM : (s.genes.filter (fun g => pg.contains g)).isEmpty = true
  · have hnil : s.genes.filter (fun g => pg.contains g) = [] := by
      simpa using hM
    rw [if_pos hM]
    constructor
    · intro he
      exact Option.noConfusion he
    · rintro ⟨hne, -⟩
      exact absurd hnil hne
  · have hne : s.genes.filter (fun g => pg.contains g) ≠ [] := by
      simpa using hM
    rw [if_neg hM]
    rw [Option.some_inj]
    constructor
    · intro he
      exact ⟨hne, he.symm⟩
    · rintro ⟨-, he⟩
      exact he.symm

/-! ### Claim theorems -/

/-- C5: the Genomics Scorer applied to an empty variant list does not
raise (the embedding is a total function; the source's early return is
taken) and returns risk_score 0.1, risk_level LOW, and an empty list of
hereditary syndromes. -/
theorem c5_genomics_empty :
    (genomicsPredict []).risk_score = 0.1 ∧
    (genomicsPredict []).risk_level = "LOW" ∧
    (genomicsPredict []).hereditary_syndromes = [] :=
  ⟨rfl, rfl, rfl⟩

/-- C9: recommendation lists are deduplicated preserving the order of
first occurrence and length-capped: the Fusion Engine concatenates the
domain recommendation lists in scorer-invocation order, deduplicates
keeping first occurrences (the result is an order-preserving sublist of
the concatenation, has no duplicates, and `dedupKeepFirst` keeps exactly
the elements of its input) and caps at 10; the Genomics Scorer's
recommendation list is likewise duplicate-free and capped at 8. -/
theorem c9_recommendations_dedup :
    (∀ domainRecs : List (List String),
       (fusionRecommendations domainRecs).Sublist domainRecs.flatten ∧
       (fusionRecommendations domainRecs).Nodup ∧
       (fusionRecommendations domainRecs).length ≤ 10) ∧
    (∀ l : List String, ∀ a : String, a ∈ dedupKeepFirst l ↔ a ∈ l) ∧
    (∀ vs : List GenomicVariant,
       ((genomicsPredict vs).recommendations).Nodup ∧
       ((genomicsPredict vs).recommendations).length ≤ 8) := by
  refine ⟨fun domainRecs => ⟨?_, ?_, ?_⟩, fun l a => mem_dedupKeepFirst a l, fun vs => ?_⟩
  · exact (List.take_sublist 10 _).trans (dedupKeepFirst_sublist _)
  · exact dedupTake_nodup 10 _
  · exact dedupTake_length 10 _
  · cases vs with
    | nil => simp [genomicsPredict]
    | cons v rest => exact genomicsRecommendations_nodup_len _ _ _ _ _

/-- C10: for every series of at least 2 valid points whose first value
is 0, `analyze_trend` returns a result (no division-by-zero error) whose
percent_change is 0. -/
theorem c10_percent_change_zero (values : List ℚ) (lab_type : String)
    (h2 : 2 ≤ values.length) (h0 : values.headD 0 = 0) :
    ∃ r : TrendResult, analyze_trend values lab_type = some r ∧ r.percent_change = 0 := by
  have hlt : ¬ values.length < 2 := by omega
  simp only [analyze_trend, if_neg hlt]
  refine ⟨_, rfl, ?_⟩
  simp only [h0, ne_eq, not_true_eq_false, if_false]
  exact pyRound_exact (0 : ℤ) (by norm_num)

/-- C10 witness: the series [0, 5] (first value 0, two points). -/
theorem c10_percent_change_zero_witness :
    ∃ r : TrendResult, analyze_trend [0, 5] "A1C" = some r ∧ r.percent_change = 0 :=
  c10_percent_change_zero [0, 5] "A1C" (by norm_num) (by norm_num)

/-- C1: evaluation of the code at the failing boundary input.  The
claim (and the code's own returned threshold strings) place every A1C
value below 6.5 outside DIABETIC, but `classify_a1c` compares strictly
against `A1C_PREDIABETIC_MAX = 6.4`, so A1C = 6.4 and A1C = 6.45 are
both classified DIABETIC with base risk 0.9.  The claim's A1C = 7.0
example itself holds: classification DIABETIC, base risk 0.9, final
risk_level CRITICAL. -/
theorem c1_a1c_boundary :
    classify_a1c (some 6.4) = ("DIABETIC", 0.9) ∧
    classify_a1c (some 6.45) = ("DIABETIC", 0.9) ∧
    classify_a1c (some 7) = ("DIABETIC", 0.9) ∧
    (diabetesPredict ⟨[7], [], none, none, false, false⟩).classification = "DIABETIC" ∧
    (diabetesPredict ⟨[7], [], none, none, false, false⟩).risk_level = "CRITICAL" := by
  refine ⟨?_, ?_, ?_, ?_, ?_⟩
  · norm_num [classify_a1c, A1C_NORMAL_MAX, A1C_PREDIABETIC_MAX]
  · norm_num [classify_a1c, A1C_NORMAL_MAX, A1C_PREDIABETIC_MAX]
  · norm_num [classify_a1c, A1C_NORMAL_MAX, A1C_PREDIABETIC_MAX]
  · simp only [diabetesPredict]
    norm_num [classify_a1c, A1C_NORMAL_MAX, A1C_PREDIABETIC_MAX]
  · simp only [diabetesPredict]
    norm_num [classify_a1c, pyOrQ, diabetesRiskLevel, A1C_NORMAL_MAX, A1C_PREDIABETIC_MAX,
      GLUCOSE_NORMAL_MAX, GLUCOSE_PREDIABETIC_MAX, min_def]

/-- C3 counterexample: with exactly the inputs listed by the claim and
no gender given, the gender defaults to 'M' and contributes 0.05, so
the returned risk_score is 0.05, not the claimed 0.0 (the level is
still LOW). -/
theorem c3_cvd_gender_cex :
    (cvdPredict ⟨some 100, some 60, some 180, some 120, some 120, some 80, some 40,
        none, some false, some false⟩).risk_score = 0.05 ∧
    (0.05 : ℚ) ≠ 0 ∧
    (cvdPredict ⟨some 100, some 60, some 180, some 120, some 120, some 80, some 40,
        none, some false, some false⟩).risk_level = "LOW" := by
  have hM : upperStartsM "M" = true := by decide
  refine ⟨?_, by norm_num, ?_⟩
  · simp only [cvdPredict]
    norm_num [hM, LDL_OPTIMAL, HDL_OPTIMAL, TRIG_HIGH, BP_SYS_NORMAL, min_def]
    rw [pyRound_exact (50 : ℤ) (by norm_num)]
  · simp only [cvdPredict]
    norm_num [hM, LDL_OPTIMAL, HDL_OPTIMAL, TRIG_HIGH, BP_SYS_NORMAL, min_def, cvdRiskLevel]

/-- C3 (amended): the Cardiovascular Scorer given LDL=100, HDL=60,
total cholesterol and triglycerides at or below their trigger
thresholds, BP 120/80, age 40, non-smoker, no diabetes, and a gender
whose uppercased form does not start with 'M' returns risk_score
exactly 0.0 and risk_level LOW; with a male gender the sex term
contributes 0.05, giving risk_score 0.05, still LOW. -/
theorem c3_cvd_baseline (g : String) :
    (upperStartsM g = false →
      (cvdPredict ⟨some 100, some 60, some 180, some 120, some 120, some 80, some 40,
          some g, some false, some false⟩).risk_score = 0 ∧
      (cvdPredict ⟨some 100, some 60, some 180, some 120, some 120, some 80, some 40,
          some g, some false, some false⟩).risk_level = "LOW") ∧
    (upperStartsM g = true →
      (cvdPredict ⟨some 100, some 60, some 180, some 120, some 120, some 80, some 40,
          some g, some false, some false⟩).risk_score = 0.05 ∧
      (cvdPredict ⟨some 100, some 60, some 180, some 120, some 120, some 80, some 40,
          some g, some false, some false⟩).risk_level = "LOW") := by
  constructor
  · intro h
    constructor
    · simp only [cvdPredict]
      norm_num [h, LDL_OPTIMAL, HDL_OPTIMAL, TRIG_HIGH, BP_SYS_NORMAL, min_def]
      rw [pyRound_exact (0 : ℤ) (by norm_num)]
    · simp only [cvdPredict]
      norm_num [h, LDL_OPTIMAL, HDL_OPTIMAL, TRIG_HIGH, BP_SYS_NORMAL, min_def, cvdRiskLevel]
  · intro h
    constructor
    · simp only [cvdPredict]
      norm_num [h, LDL_OPTIMAL, HDL_OPTIMAL, TRIG_HIGH, BP_SYS_NORMAL, min_def]
      rw [pyRound_exact (50 : ℤ) (by norm_num)]
    · simp only [cvdPredict]
      norm_num [h, LDL_OPTIMAL, HDL_OPTIMAL, TRIG_HIGH, BP_SYS_NORMAL, min_def, cvdRiskLevel]

/-- C3 witness: gender "F" satisfies the amended hypothesis and yields
risk_score 0 and level LOW. -/
theorem c3_cvd_baseline_witness :
    (cvdPredict ⟨some 100, some 60, some 180, some 120, some 120, some 80, some 40,
        some "F", some false, some false⟩).risk_score = 0 ∧
    (cvdPredict ⟨some 100, some 60, some 180, some 120, some 120, some 80, some 40,
        some "F", some false, some false⟩).risk_level = "LOW" :=
  (c3_cvd_baseline "F").1 (by decide)

/-- C4: the Fusion Engine weights each domain score (diabetes ×1.2,
cardiovascular ×1.1, genomics ×1.3, imaging and clinical notes ×1.0);
for every non-empty weighted-score list the overall score equals
min(0.95, 0.6·mean + 0.4·max); with no scorer run it is 0.1; and the
overall level buckets are LOW below 0.2, MODERATE below 0.4, HIGH below
0.7, CRITICAL otherwise. -/
theorem c4_fusion_formula :
    (∀ dia cvd img nlp gen : Option ℚ,
       fusionWeightedScores dia cvd img nlp gen =
         (dia.map (fun s => s * 1.2)).toList ++ (cvd.map (fun s => s * 1.1)).toList ++
         (img.map (fun s => s * 1)).toList ++ (nlp.map (fun s => s * 1)).toList ++
         (gen.map (fun s => s * 1.3)).toList) ∧
    (∀ ws : List ℚ, ws ≠ [] →
       fusionOverallRisk ws = min 0.95 (0.6 * (ws.sum / ws.length) + 0.4 * listMax ws)) ∧
    fusionOverallRisk (fusionWeightedScores none none none none none) = 0.1 ∧
    (∀ r : ℚ,
       (r < 0.2 → fusionRiskLevel r = "LOW") ∧
       (0.2 ≤ r → r < 0.4 → fusionRiskLevel r = "MODERATE") ∧
       (0.4 ≤ r → r < 0.7 → fusionRiskLevel r = "HIGH") ∧
       (0.7 ≤ r → fusionRiskLevel r = "CRITICAL")) := by
  refine ⟨?_, ?_, ?_, ?_⟩
  · intro dia cvd img nlp gen
    cases dia <;> cases cvd <;> cases img <;> cases nlp <;> cases gen <;> rfl
  · intro ws hne
    cases ws with
    | nil => exact absurd rfl hne
    | cons a t => simp [fusionOverallRisk, listMean]
  · norm_num [fusionOverallRisk, fusionWeightedScores, optWeighted, min_def]
  · intro r
    refine ⟨fun h1 => ?_, fun h1 h2 => ?_, fun h1 h2 => ?_, fun h1 => ?_⟩
    · simp only [fusionRiskLevel]
      rw [if_pos h1]
    · simp only [fusionRiskLevel]
      rw [if_neg (by linarith), if_pos h2]
    · simp only [fusionRiskLevel]
      rw [if_neg (by linarith), if_neg (by linarith), if_pos h2]
    · simp only [fusionRiskLevel]
      rw [if_neg (by linarith), if_neg (by linarith), if_neg (by linarith)]

/-- C4 witness: a single diabetes score 0.5 gives the weighted list
[0.6] and overall risk min(0.95, 0.6·mean + 0.4·max); risk 0.3 buckets
to MODERATE. -/
theorem c4_fusion_formula_witness :
    fusionOverallRisk [(0.6 : ℚ)] =
      min 0.95 (0.6 * (([(0.6 : ℚ)].sum / [(0.6 : ℚ)].length)) + 0.4 * listMax [(0.6 : ℚ)]) ∧
    fusionRiskLevel 0.3 = "MODERATE" :=
  ⟨c4_fusion_formula.2.1 [(0.6 : ℚ)] (by simp),
   ((c4_fusion_formula.2.2.2 0.3).2.1 (by norm_num) (by norm_num))⟩

/-- C2 counterexample: the Imaging Scorer at abnormality_score 0.2
(below the 0.3 normal cut-off) returns risk_level NORMAL, and the
Clinical-Note-Signal Scorer on the single condition "diabetes" returns
risk_level CHRONIC; neither value is in {LOW, MODERATE, HIGH,
CRITICAL}. -/
theorem c2_risk_level_cex :
    imagingRiskLevel sampleFirst ⟨some "XRAY", some "CHEST", some 0.2⟩ = "NORMAL" ∧
    "NORMAL" ∉ (["LOW", "MODERATE", "HIGH", "CRITICAL"] : List String) ∧
    nlpRiskLevel ["diabetes"] = "CHRONIC" ∧
    "CHRONIC" ∉ (["LOW", "MODERATE", "HIGH", "CRITICAL"] : List String) := by
  refine ⟨?_, by decide, by decide, by decide⟩
  have hdet : imagingDetect sampleFirst ⟨some "XRAY", some "CHEST", some 0.2⟩ =
      [⟨"No acute cardiopulmonary abnormality", "NORMAL"⟩] := by
    simp only [imagingDetect]
    rw [show pyOrStr (some "XRAY") "XRAY" = "XRAY" from by decide,
        show pyOrStr (some "CHEST") "CHEST" = "CHEST" from by decide,
        show Option.getD (some (0.2 : ℚ)) 0.2 = 0.2 from rfl,
        if_pos (by norm_num : (0.2 : ℚ) < 0.3)]
    decide
  unfold imagingRiskLevel
  rw [hdet]
  decide

/-- C2 (amended): for every input, the risk_level of the Diabetes,
Cardiovascular and Genomics scorers is one of LOW, MODERATE, HIGH,
CRITICAL; the Imaging Scorer's risk_level additionally admits NORMAL
(its severity tiers are NORMAL/LOW/MODERATE/HIGH/CRITICAL, NORMAL when
no abnormal finding is detected), and the Clinical-Note-Signal Scorer's
risk_level additionally admits CHRONIC (its condition-severity tiers
are LOW/MODERATE/CHRONIC/HIGH/CRITICAL). -/
theorem c2_risk_level_domains (dInp : DiabetesInput) (cInp : CvdInput)
    (vs : List GenomicVariant) (sample : List Finding → Nat → List Finding)
    (iInp : ImagingInput) (conditions : List String) :
    (diabetesPredict dInp).risk_level ∈ (["LOW", "MODERATE", "HIGH", "CRITICAL"] : List String) ∧
    (cvdPredict cInp).risk_level ∈ (["LOW", "MODERATE", "HIGH", "CRITICAL"] : List String) ∧
    (genomicsPredict vs).risk_level ∈ (["LOW", "MODERATE", "HIGH", "CRITICAL"] : List String) ∧
    imagingRiskLevel sample iInp ∈
      (["NORMAL", "LOW", "MODERATE", "HIGH", "CRITICAL"] : List String) ∧
    nlpRiskLevel conditions ∈
      (["LOW", "MODERATE", "CHRONIC", "HIGH", "CRITICAL"] : List String) := by
  refine ⟨diabetesRiskLevel_mem _, cvdRiskLevel_mem _, ?_, imagingSeverityRisk_fst_mem _,
    nlpRiskLevel_mem _⟩
  cases vs with
  | nil => simp [genomicsPredict]
  | cons v rest => exact genomicsRiskOf_fst_mem _ _ _ _

/-- C8: evaluation of the imaging finding selection at the failing
input.  The selection is modelled with the pseudo-random draw as an
explicit parameter because the source seeds it from the process-salted
`hash(str(imaging_data))`; two admissible resolutions of the draw
(first candidate / last candidate) produce different finding lists on
the same input, so the output is not a function of the input content
alone, contradicting the stable-hash requirement. -/
theorem c8_imaging_draw_dependence :
    imagingDetect sampleFirst ⟨some "XRAY", some "CHEST", some 0.5⟩ ≠
    imagingDetect sampleLast ⟨some "XRAY", some "CHEST", some 0.5⟩ := by
  have habn : (findingsFor "XRAY" "CHEST").filter (fun f => f.severity != "NORMAL") =
      [⟨"Cardiomegaly", "MODERATE"⟩, ⟨"Pulmonary nodule", "HIGH"⟩,
       ⟨"Pneumonia", "MODERATE"⟩, ⟨"Pleural effusion", "MODERATE"⟩] := by decide
  have h1 : imagingDetect sampleFirst ⟨some "XRAY", some "CHEST", some 0.5⟩ =
      [⟨"Cardiomegaly", "MODERATE"⟩] := by
    simp only [imagingDetect]
    rw [show pyOrStr (some "XRAY") "XRAY" = "XRAY" from by decide,
        show pyOrStr (some "CHEST") "CHEST" = "CHEST" from by decide,
        show Option.getD (some (0.5 : ℚ)) 0.2 = 0.5 from rfl,
        if_neg (by norm_num : ¬ (0.5 : ℚ) < 0.3), habn,
        if_pos (by norm_num : (0.5 : ℚ) < 0.6)]
    decide
  have h2 : imagingDetect sampleLast ⟨some "XRAY", some "CHEST", some 0.5⟩ =
      [⟨"Pleural effusion", "MODERATE"⟩] := by
    simp only [imagingDetect]
    rw [show pyOrStr (some "XRAY") "XRAY" = "XRAY" from by decide,
        show pyOrStr (some "CHEST") "CHEST" = "CHEST" from by decide,
        show Option.getD (some (0.5 : ℚ)) 0.2 = 0.5 from rfl,
        if_neg (by norm_num : ¬ (0.5 : ℚ) < 0.3), habn,
        if_pos (by norm_num : (0.5 : ℚ) < 0.6)]
    decide
  rw [h1, h2]
  decide

/-- C6: a single PATHOGENIC BRCA1 variant yields risk_level HIGH,
risk_score = max(0.7, BRCA1's lifetime-risk-increase) and the syndrome
"Hereditary Breast and Ovarian Cancer Syndrome" in the output; and in
general a syndrome is reported exactly when some gene of its panel
carries a PATHOGENIC or LIKELY_PATHOGENIC variant, with confidence 0.9
when at least 2 panel genes match and 0.75 otherwise. -/
theorem c6_genomics_syndromes :
    ((genomicsPredict [⟨"BRCA1", "PATHOGENIC"⟩]).risk_level = "HIGH" ∧
     (genomicsPredict [⟨"BRCA1", "PATHOGENIC"⟩]).risk_score =
       max 0.7 (geneInfo "BRCA1").lifetime_risk_increase ∧
     "Hereditary Breast and Ovarian Cancer Syndrome" ∈
       ((genomicsPredict [⟨"BRCA1", "PATHOGENIC"⟩]).hereditary_syndromes.map
         (fun hsy => hsy.syndrome))) ∧
    (∀ vs : List GenomicVariant, ∀ s ∈ HEREDITARY_SYNDROMES,
      ((∃ hsy ∈ identify_hereditary_syndromes vs, hsy.syndrome = s.name) ↔
        ∃ g ∈ s.genes, g ∈ pathogenicGenes vs) ∧
      (∀ hsy ∈ identify_hereditary_syndromes vs,
        hsy.confidence = if 2 ≤ hsy.affected_genes.length then 0.9 else 0.75)) := by
  constructor
  · refine ⟨by decide, ?_, by decide⟩
    have h1 : (genomicsPredict [⟨"BRCA1", "PATHOGENIC"⟩]).risk_score =
        pyRound 3 (max 0.7 (max 0 0.7)) := rfl
    have h2 : (geneInfo "BRCA1").lifetime_risk_increase = 0.7 := rfl
    rw [h1, h2, max_eq_right (by norm_num : (0 : ℚ) ≤ 0.7), max_self,
        pyRound_exact (700 : ℤ) (by norm_num)]
  · intro vs s hs
    constructor
    · constructor
      · rintro ⟨hsy, hmem, hname⟩
        rw [identify_hereditary_syndromes] at hmem
        rcases List.mem_filterMap.mp hmem with ⟨s', hs', hf⟩
        rcases (syndromeHitFor_eq_some _ s' hsy).mp hf with ⟨hne, hh⟩
        have hname' : s'.name = s.name := by
          rw [hh] at hname
          exact hname
        have hss : s' = s := syndrome_name_inj s' hs' s hs hname'
        subst hss
        obtain ⟨g, hgmem⟩ := List.exists_mem_of_ne_nil _ hne
        have hg := List.mem_filter.mp hgmem
        exact ⟨g, hg.1, by simpa using hg.2⟩
      · rintro ⟨g, hg, hgp⟩
        have hne : s.genes.filter (fun x => (pathogenicGenes vs).contains x) ≠ [] := by
          intro hnil
          have hall := List.filter_eq_nil_iff.mp hnil g hg
          simp at hall
          exact hall hgp
        refine ⟨⟨s.name, s.genes.filter (fun g => (pathogenicGenes vs).contains g),
                 s.primary_cancers, s.surveillance_protocol,
                 if 1 < (s.genes.filter (fun g => (pathogenicGenes vs).contains g)).length
                 then 0.9 else 0.75⟩, ?_, rfl⟩
        rw [identify_hereditary_syndromes]
        exact List.mem_filterMap.mpr ⟨s, hs, (syndromeHitFor_eq_some _ s _).mpr ⟨hne, rfl⟩⟩
    · intro hsy hmem
      rw [identify_hereditary_syndromes] at hmem
      rcases List.mem_filterMap.mp hmem with ⟨s', _, hf⟩
      rcases (syndromeHitFor_eq_some _ s' hsy).mp hf with ⟨-, hh⟩
      subst hh
      by_cases h2 : 2 ≤ (s'.genes.filter
          (fun g => (pathogenicGenes vs).contains g)).length
      · rw [if_pos h2]
        show (if _ then _ else _) = _
        rw [if_pos (by omega : 1 < (s'.genes.filter
          (fun g => (pathogenicGenes vs).contains g)).length)]
      · rw [if_neg h2]
        show (if _ then _ else _) = _
        rw [if_neg (by omega : ¬ 1 < (s'.genes.filter
          (fun g => (pathogenicGenes vs).contains g)).length)]

/-- C6 witness: the hereditary breast and ovarian cancer syndrome and a
single PATHOGENIC BRCA1 variant instantiate the general syndrome
characterisation. -/
theorem c6_genomics_syndromes_witness :
    ((∃ hsy ∈ identify_hereditary_syndromes [⟨"BRCA1", "PATHOGENIC"⟩],
        hsy.syndrome = hbocSyndrome.name) ↔
      ∃ g ∈ hbocSyndrome.genes, g ∈ pathogenicGenes [⟨"BRCA1", "PATHOGENIC"⟩]) ∧
    (∀ hsy ∈ identify_hereditary_syndromes [⟨"BRCA1", "PATHOGENIC"⟩],
      hsy.confidence = if 2 ≤ hsy.affected_genes.length then 0.9 else 0.75) :=
  c6_genomics_syndromes.2 [⟨"BRCA1", "PATHOGENIC"⟩] hbocSyndrome (by decide)

/-- C7: the A1C series [5.0, 5.2, 5.5, 6.0] yields trend INCREASING and
percent_change exactly 20.0; and for every A1C series accepted by the
detector, is_concerning holds exactly when the trend is a RAPIDLY
variant or the per-interval average change |last − first| / intervals
meets the A1C warning threshold 0.3 or critical threshold 0.5. -/
theorem c7_trend_a1c :
    analyze_trend [5, 5.2, 5.5, 6] "A1C" =
      some ⟨"INCREASING", 5, 6, 1, 20, some "WARNING_RATE_OF_CHANGE", true⟩ ∧
    (∀ (values : List ℚ) (r : TrendResult), analyze_trend values "A1C" = some r →
      (r.is_concerning = true ↔
        (strStarts r.trend "RAPIDLY" = true ∨
         ((0.3 : ℚ) ≤ |r.last_value - r.first_value| / ((values.length - 1 : ℕ) : ℚ) ∨
          (0.5 : ℚ) ≤ |r.last_value - r.first_value| / ((values.length - 1 : ℕ) : ℚ))))) := by
  constructor
  · simp only [analyze_trend]
    rw [if_neg (by norm_num : ¬ ([5, 5.2, 5.5, 6] : List ℚ).length < 2)]
    rw [show ([5, 5.2, 5.5, 6] : List ℚ).headD 0 = 5 from rfl,
        show ([5, 5.2, 5.5, 6] : List ℚ).getLastD 0 = 6 from rfl,
        show ([5, 5.2, 5.5, 6] : List ℚ).length = 4 from rfl,
        if_pos (by norm_num : (5 : ℚ) ≠ 0)]
    rw [show (6 : ℚ) - 5 = 1 from by norm_num,
        show (1 : ℚ) / 5 * 100 = 20 from by norm_num,
        show (max 1 (4 - 1) : ℕ) = 3 from rfl,
        show ((3 : ℕ) : ℚ) = 3 from by norm_num,
        show |(1 : ℚ)| = 1 from by norm_num,
        show trendDirection (1 : ℚ) 20 = "INCREASING" from by norm_num [trendDirection]]
    rw [pyRound_exact (100 : ℤ) (by norm_num), pyRound_exact (200 : ℤ) (by norm_num)]
    have hrat : rateAlertFor "A1C" ((1 : ℚ) / 3) = some "WARNING_RATE_OF_CHANGE" := by
      simp only [rateAlertFor,
        show RATE_THRESHOLDS.lookup (strUpper "A1C") = some ⟨0.3, 0.5⟩ from rfl]
      rw [if_neg (by norm_num : ¬ (1 : ℚ) / 3 ≥ (0.5 : ℚ)),
          if_pos (by norm_num : (1 : ℚ) / 3 ≥ (0.3 : ℚ))]
    rw [hrat]
    rw [show (strStarts "INCREASING" "RAPIDLY" ||
          (some "WARNING_RATE_OF_CHANGE").isSome) = true from by decide]
  · intro values r h
    by_cases hlen : values.length < 2
    · simp only [analyze_trend, if_pos hlen] at h
      exact absurd h (by simp)
    · simp only [analyze_trend, if_neg hlen] at h
      obtain rfl := (Option.some_inj.mp h).symm
      have hmax : (max 1 (values.length - 1) : ℕ) = values.length - 1 :=
        Nat.max_eq_right (by omega)
      dsimp only
      rw [hmax]
      simp only [rateAlertFor,
        show RATE_THRESHOLDS.lookup (strUpper "A1C") = some ⟨0.3, 0.5⟩ from rfl]
      dsimp only
      by_cases h5 :
          |values.getLastD 0 - values.headD 0| / ((values.length - 1 : ℕ) : ℚ) ≥ 0.5
      · rw [if_pos h5]
        constructor
        · intro _
          exact Or.inr (Or.inr h5)
        · intro _
          simp
      · rw [if_neg h5]
        by_cases h3 :
            |values.getLastD 0 - values.headD 0| / ((values.length - 1 : ℕ) : ℚ) ≥ 0.3
        · rw [if_pos h3]
          constructor
          · intro _
            exact Or.inr (Or.inl h3)
          · intro _
            simp
        · rw [if_neg h3]
          simp only [Option.isSome_none, Bool.or_false]
          constructor
          · intro ht
            exact Or.inl ht
          · rintro (ht | hm | hm)
            · exact ht
            · exact absurd hm h3
            · exact absurd hm h5

/-- C7 witness: the series [5.0, 5.2, 5.5, 6.0] instantiates the
is_concerning characterisation (here the rate 1/3 meets the warning
threshold 0.3, so is_concerning is true). -/
theorem c7_trend_a1c_witness :
    ((⟨"INCREASING", 5, 6, 1, 20, some "WARNING_RATE_OF_CHANGE", true⟩ :
        TrendResult).is_concerning = true ↔
      (strStarts (⟨"INCREASING", 5, 6, 1, 20, some "WARNING_RATE_OF_CHANGE", true⟩ :
          TrendResult).trend "RAPIDLY" = true ∨
       ((0.3 : ℚ) ≤ |(⟨"INCREASING", 5, 6, 1, 20, some "WARNING_RATE_OF_CHANGE", true⟩ :
            TrendResult).last_value -
          (⟨"INCREASING", 5, 6, 1, 20, some "WARNING_RATE_OF_CHANGE", true⟩ :
            TrendResult).first_value| /
          ((([5, 5.2, 5.5, 6] : List ℚ).length - 1 : ℕ) : ℚ) ∨
        (0.5 : ℚ) ≤ |(⟨"INCREASING", 5, 6, 1, 20, some "WARNING_RATE_OF_CHANGE", true⟩ :
            TrendResult).last_value -
          (⟨"INCREASING", 5, 6, 1, 20, some "WARNING_RATE_OF_CHANGE", true⟩ :
            TrendResult).first_value| /
          ((([5, 5.2, 5.5, 6] : List ℚ).length - 1 : ℕ) : ℚ)))) :=
  c7_trend_a1c.2 [5, 5.2, 5.5, 6] _ c7_trend_a1c.1

end HealthAnalytics
